import Mathlib

/-!
Verification of the rust-timerfd core: the `ITimerSpec` schedule structure
(src/itimer_spec.rs), the raw syscall wrappers and the `TimerFd` handle
(src/lib.rs), embedded shallowly.  Machine integers are modelled as `Int`
(`i64` fields) and `Nat` (`u64`/byte values); the OS is modelled as explicit
inputs (the raw return value and the errno at the point of failure, and for
the read path the delivered bytes).  The target is 64-bit Linux (x86_64):
`time_t` and `c_long` are 64-bit signed, native byte order is little-endian.
-/

namespace Timerfd

/-- The nix crate `TimeSpec`, wrapping libc `timespec { tv_sec: time_t,
tv_nsec: c_long }`; both fields are 64-bit signed integers on the 64-bit
Linux target. -/
structure TimeSpec where
  tv_sec : Int
  tv_nsec : Int
deriving DecidableEq, Repr

/-- Nanoseconds per second, nix `NANOS_PER_SEC`. -/
def NANOS_PER_SEC : Int := 1000000000

/-- The value nix `TimeValLike::seconds` constructs for `TimeSpec` once its
bounds assert has passed: whole seconds, zero nanoseconds.  The assert itself
(`TS_MIN_SECONDS ≤ s ≤ TS_MAX_SECONDS`, panicking otherwise) is modelled by
`TimeSpec.seconds_checked` below. -/
def TimeSpec.seconds (s : Int) : TimeSpec := ⟨s, 0⟩

/-- The value nix `TimeValLike::nanoseconds` constructs for `TimeSpec` once
its bounds assert has passed: splits a nanosecond count by floor division and
floor modulus with `NANOS_PER_SEC` (nix `div_mod_floor_64`).  The assert on
the resulting seconds is modelled by `TimeSpec.nanoseconds_checked` below. -/
def TimeSpec.nanoseconds (ns : Int) : TimeSpec :=
  ⟨ns.fdiv NANOS_PER_SEC, ns.fmod NANOS_PER_SEC⟩

/-- nix `TimeValLike::zero` for `TimeSpec`: `seconds 0`. -/
def TimeSpec.zero : TimeSpec := TimeSpec.seconds 0

/-- The length of time a `TimeSpec` denotes, in nanoseconds. -/
def TimeSpec.toNanos (t : TimeSpec) : Int := t.tv_sec * NANOS_PER_SEC + t.tv_nsec

/-- Rust `std::time::Duration`: `secs` is a `u64`, `nanos` a `u32` kept below
`10^9` by the `Duration` invariant.  `as_secs` and `subsec_nanos` read the two
fields. -/
structure Duration where
  secs : Nat
  nanos : Nat
deriving DecidableEq, Repr

/-- Well-formed `Duration` values: `secs` fits in a `u64` and `nanos` is a
sub-second count, as `std::time::Duration` guarantees. -/
def Duration.WF (d : Duration) : Prop := d.secs < 2 ^ 64 ∧ d.nanos < 1000000000

/-- The length of time a `Duration` denotes, in nanoseconds. -/
def Duration.toNanos (d : Duration) : Int := (d.secs : Int) * NANOS_PER_SEC + (d.nanos : Int)

/-- The Rust `as i64` cast of a `u64` value: wraps modulo `2^64` into the
signed range. -/
def i64_of_u64 (n : Nat) : Int := if n < 2 ^ 63 then (n : Int) else (n : Int) - 2 ^ 64

/-- src/itimer_spec.rs `duration_to_timespec`:
`TimeSpec::nanoseconds(duration.as_secs() as i64 + duration.subsec_nanos() as i64)`.
Note the seconds component is added to the nanosecond component without any
scaling. -/
def duration_to_timespec (d : Duration) : TimeSpec :=
  TimeSpec.nanoseconds (i64_of_u64 d.secs + (d.nanos : Int))

/-- src/itimer_spec.rs `ITimerSpec`, `repr(C)`: the kernel `itimerspec` with
interval and initial value. -/
structure ITimerSpec where
  it_interval : TimeSpec
  it_value : TimeSpec
deriving DecidableEq, Repr

/-- `ITimerSpec::new(interval, value)`. -/
def ITimerSpec.new (interval value : Duration) : ITimerSpec :=
  ⟨duration_to_timespec interval, duration_to_timespec value⟩

/-- `ITimerSpec::seconds(value)`. -/
def ITimerSpec.seconds (value : Int) : ITimerSpec :=
  ⟨TimeSpec.zero, TimeSpec.seconds value⟩

/-- `ITimerSpec::nanoseconds(value)`. -/
def ITimerSpec.nanoseconds (value : Int) : ITimerSpec :=
  ⟨TimeSpec.zero, TimeSpec.nanoseconds value⟩

/-- `ITimerSpec::interval_seconds(&self, value)`. -/
def ITimerSpec.interval_seconds (s : ITimerSpec) (value : Int) : ITimerSpec :=
  ⟨TimeSpec.seconds value, s.it_value⟩

/-- `ITimerSpec::interval_nanoseconds(&self, value)`. -/
def ITimerSpec.interval_nanoseconds (s : ITimerSpec) (value : Int) : ITimerSpec :=
  ⟨TimeSpec.nanoseconds value, s.it_value⟩

/-- `impl From<Duration> for ITimerSpec`. -/
def ITimerSpec.fromDuration (d : Duration) : ITimerSpec :=
  ⟨TimeSpec.zero, duration_to_timespec d⟩

/-! ### The nix `TimeSpec` bounds assert

nix `TimeValLike::seconds` and `TimeValLike::nanoseconds` begin with
`assert!(secs >= TS_MIN_SECONDS && secs <= TS_MAX_SECONDS, ..)` on the
(resulting) whole-seconds component and panic when it fails.  The checked
variants below model that panic as `none`; the `ITimerSpec` constructors of
src/itimer_spec.rs inherit it, since each calls one of the two nix
constructors on its argument.  (`TimeSpec::zero()` is `seconds(0)`, whose
assert always passes.) -/

/-- `i64::MAX`. -/
def i64_MAX : Int := 2 ^ 63 - 1

/-- nix `TS_MAX_SECONDS = (i64::MAX / NANOS_PER_SEC) - 1`. -/
def TS_MAX_SECONDS : Int := i64_MAX / NANOS_PER_SEC - 1

/-- nix `TS_MIN_SECONDS = -TS_MAX_SECONDS`. -/
def TS_MIN_SECONDS : Int := -TS_MAX_SECONDS

/-- nix `TimeValLike::seconds` with its bounds assert: `none` models the
panic on an out-of-range argument. -/
def TimeSpec.seconds_checked (s : Int) : Option TimeSpec :=
  if TS_MIN_SECONDS ≤ s ∧ s ≤ TS_MAX_SECONDS then some (TimeSpec.seconds s)
  else none

/-- nix `TimeValLike::nanoseconds` with its bounds assert on the
floor-divided seconds: `none` models the panic. -/
def TimeSpec.nanoseconds_checked (ns : Int) : Option TimeSpec :=
  let secs := ns.fdiv NANOS_PER_SEC
  if TS_MIN_SECONDS ≤ secs ∧ secs ≤ TS_MAX_SECONDS then
    some (TimeSpec.nanoseconds ns)
  else none

/-- `duration_to_timespec` with both failure modes of the source made
explicit: the i64 addition `as_secs() as i64 + subsec_nanos() as i64` can
leave the i64 range (Rust panics in debug, wraps in release — modelled as
failure), and `TimeSpec::nanoseconds` asserts its bounds. -/
def duration_to_timespec_checked (d : Duration) : Option TimeSpec :=
  let sum := i64_of_u64 d.secs + (d.nanos : Int)
  if -(2 ^ 63) ≤ sum ∧ sum ≤ i64_MAX then TimeSpec.nanoseconds_checked sum
  else none

/-- `ITimerSpec::seconds(value)` with the nix bounds assert it inherits. -/
def ITimerSpec.seconds_checked (value : Int) : Option ITimerSpec :=
  (TimeSpec.seconds_checked value).map fun t => ⟨TimeSpec.zero, t⟩

/-- `ITimerSpec::nanoseconds(value)` with the nix bounds assert it
inherits. -/
def ITimerSpec.nanoseconds_checked (value : Int) : Option ITimerSpec :=
  (TimeSpec.nanoseconds_checked value).map fun t => ⟨TimeSpec.zero, t⟩

/-- `ITimerSpec::interval_seconds(&self, value)` with the nix bounds assert
it inherits. -/
def ITimerSpec.interval_seconds_checked (s : ITimerSpec) (value : Int) :
    Option ITimerSpec :=
  (TimeSpec.seconds_checked value).map fun t => ⟨t, s.it_value⟩

/-- `ITimerSpec::interval_nanoseconds(&self, value)` with the nix bounds
assert it inherits. -/
def ITimerSpec.interval_nanoseconds_checked (s : ITimerSpec) (value : Int) :
    Option ITimerSpec :=
  (TimeSpec.nanoseconds_checked value).map fun t => ⟨t, s.it_value⟩

/-- `impl From<Duration> for ITimerSpec` with the failure modes of the
conversion made explicit. -/
def ITimerSpec.fromDuration_checked (d : Duration) : Option ITimerSpec :=
  (duration_to_timespec_checked d).map fun t => ⟨TimeSpec.zero, t⟩

/-! ### `repr(C)` layout model

`ITimerSpec` is `repr(C)` with two `TimeSpec` fields, and nix `TimeSpec`
wraps libc `timespec`, itself a C struct of `time_t` then `c_long` (each
8 bytes, 8-aligned on x86_64 Linux).  The C struct layout algorithm: each
field is placed at the current offset rounded up to the field alignment,
the struct alignment is the maximum field alignment, and the struct size is
the end offset rounded up to the struct alignment. -/

/-- Round `off` up to the next multiple of `a`. -/
def alignUp (off a : Nat) : Nat := (off + a - 1) / a * a

/-- Offsets assigned by the C layout algorithm to a list of fields given as
(size, alignment) pairs, starting from offset `off`. -/
def cFieldOffsets : Nat → List (Nat × Nat) → List Nat
  | _, [] => []
  | off, f :: rest =>
    let o := alignUp off f.2
    o :: cFieldOffsets (o + f.1) rest

/-- Alignment of a C struct: maximum alignment of its fields (at least 1). -/
def cStructAlign (fields : List (Nat × Nat)) : Nat :=
  fields.foldl (fun m f => max m f.2) 1

/-- End offset after laying out the fields from offset `off`. -/
def cStructEnd : Nat → List (Nat × Nat) → Nat
  | off, [] => off
  | off, f :: rest => cStructEnd (alignUp off f.2 + f.1) rest

/-- Size of a C struct: end offset rounded up to the struct alignment. -/
def cStructSize (fields : List (Nat × Nat)) : Nat :=
  alignUp (cStructEnd 0 fields) (cStructAlign fields)

/-- libc `timespec` on x86_64 Linux: `tv_sec : i64`, `tv_nsec : i64`. -/
def timespec_fields : List (Nat × Nat) := [(8, 8), (8, 8)]

/-- `ITimerSpec`: two consecutive `TimeSpec` (= `timespec`) fields. -/
def itimer_spec_fields : List (Nat × Nat) :=
  [(cStructSize timespec_fields, cStructAlign timespec_fields),
   (cStructSize timespec_fields, cStructAlign timespec_fields)]

/-- The size asserted by `test_itimer_spec_layout` in src/itimer_spec.rs. -/
def test_asserted_size : Nat := 32

/-- The alignment asserted by `test_itimer_spec_layout` in src/itimer_spec.rs. -/
def test_asserted_align : Nat := 8

/-! ### Flags (src/lib.rs `bitflags!`) -/

/-- `TFDFlags`: creation flags, a bit set over a `c_int`. -/
structure TFDFlags where
  bits : Int
deriving DecidableEq, Repr

/-- `TFDFlags::TFD_CLOSEXEC = 524288`. -/
def TFD_CLOSEXEC : TFDFlags := ⟨524288⟩

/-- `TFDFlags::TFD_NONBLOCK = 2048`. -/
def TFD_NONBLOCK : TFDFlags := ⟨2048⟩

/-- `derive(Default)` on a bitflags set: the empty set, bits 0. -/
def TFDFlags.default : TFDFlags := ⟨0⟩

/-- `TFDTimerFlags`: arm-time flags, a bit set over a `c_int`. -/
structure TFDTimerFlags where
  bits : Int
deriving DecidableEq, Repr

/-- `TFDTimerFlags::TFD_TIMER_ABSTIME = 1`. -/
def TFD_TIMER_ABSTIME : TFDTimerFlags := ⟨1⟩

/-- `derive(Default)` on a bitflags set: the empty set, bits 0. -/
def TFDTimerFlags.default : TFDTimerFlags := ⟨0⟩

/-! ### Syscall wrappers and the handle (src/lib.rs)

Each wrapper is modelled as a function of the raw OS outcome: the syscall
return value together with the errno current at the point of failure
(nix `Errno::last` / `Error::last`). -/

/-- `timerfd_create`: `Errno::result(sys::timerfd_create(..))` — the sentinel
return `-1` becomes an error carrying the current errno, any other return is
the new descriptor. -/
def timerfd_create (raw : Int) (errno : Nat) : Except Nat Int :=
  if raw = -1 then .error errno else .ok raw

/-- `timerfd_settime` wrapper: `-1` becomes `Err(Error::last())`, otherwise
`Ok(())`. -/
def timerfd_settime (res : Int) (errno : Nat) : Except Nat Unit :=
  if res = -1 then .error errno else .ok ()

/-- `timerfd_gettime` wrapper: `-1` becomes `Err(Error::last())`, otherwise
`Ok(())`. -/
def timerfd_gettime (res : Int) (errno : Nat) : Except Nat Unit :=
  if res = -1 then .error errno else .ok ()

/-- `TimerFd::set_time_with_flags(flags, itmr, otmr)`: passes `flags.bits()`,
the schedule and whether an old-schedule slot was supplied to the raw
`timerfd_settime` call; `os` models the kernel response (return value and
errno) as a function of those arguments. -/
def set_time_with_flags (os : Int → ITimerSpec → Bool → Int × Nat)
    (flags : TFDTimerFlags) (itmr : ITimerSpec) (otmr : Bool) : Except Nat Unit :=
  let r := os flags.bits itmr otmr
  timerfd_settime r.1 r.2

/-- `TimerFd::set_time(itmr, otmr)`:
`self.set_time_with_flags(Default::default(), itmr, otmr)`. -/
def set_time (os : Int → ITimerSpec → Bool → Int × Nat)
    (itmr : ITimerSpec) (otmr : Bool) : Except Nat Unit :=
  set_time_with_flags os TFDTimerFlags.default itmr otmr

/-- `Errno::EAGAIN` on Linux. -/
def EAGAIN : Nat := 11

/-- `TIMERFD_DATA_SIZE`: the fixed 8-byte width of the expiration counter. -/
def TIMERFD_DATA_SIZE : Nat := 8

/-- `mem::transmute::<[u8; 8], u64>` on the little-endian x86_64 target:
the native-endian (little-endian) value of the byte list, first byte least
significant. -/
def u64_from_ne_bytes (buf : List Nat) : Nat :=
  buf.foldr (fun b acc => b + 256 * acc) 0

/-- Outcome of `TimerFd::read_time`: `Ok(Option<u64>)`, `Err(errno)`, or the
`unreachable!` panic. -/
inductive ReadTimeResult where
  | ok : Option Nat → ReadTimeResult
  | err : Nat → ReadTimeResult
  | fatal : ReadTimeResult
deriving DecidableEq, Repr

/-- `TimerFd::read_time`, as a function of the `unistd::read` outcome (the
bytes delivered on success — the success return value is their count — or the
errno on failure):
`Ok(TIMERFD_DATA_SIZE)` yields the transmuted counter, any other `Ok` count
hits `unreachable!("partial read of timerfd")`, `Err(EAGAIN)` yields
`Ok(None)`, any other error is returned unchanged. -/
def read_time (r : Except Nat (List Nat)) : ReadTimeResult :=
  match r with
  | .ok buf =>
    if buf.length = TIMERFD_DATA_SIZE then .ok (some (u64_from_ne_bytes buf))
    else .fatal
  | .error e => if e = EAGAIN then .ok none else .err e

/-- Outcome of `Iterator::next` for `TimerFd`: an `Option<u64>` item, or a
propagated panic. -/
inductive NextResult where
  | value : Option Nat → NextResult
  | fatal : NextResult
deriving DecidableEq, Repr

/-- `impl Iterator for TimerFd`: `next` is `self.read_time().unwrap_or(None)`
— a success passes its payload through, an error becomes `None`, the
partial-read panic propagates. -/
def timer_next (r : Except Nat (List Nat)) : NextResult :=
  match read_time r with
  | .ok v => .value v
  | .err _ => .value none
  | .fatal => .fatal

/-- `impl Drop for TimerFd`: `let _ = unistd::close(self.0);` — the close
outcome, success or error, is discarded. -/
def timerfd_drop (_r : Except Nat Unit) : Unit := ()

/-! ### Claims -/

/-- C1: the claim states that `duration_to_timespec` (used by
`ITimerSpec::new` and `From<Duration>`) denotes exactly the same length of
time as the input duration, folding the whole-seconds component correctly
scaled.  Evaluating the code at the duration of exactly 1 second shows the
divergence: the seconds component is added to the nanosecond component
unscaled, so 1 second converts to the timespec (0 s, 1 ns), which denotes
1 nanosecond, not 10^9 nanoseconds. -/
theorem C1_duration_conversion_drops_seconds :
    duration_to_timespec ⟨1, 0⟩ = ⟨0, 1⟩ ∧
    TimeSpec.toNanos (duration_to_timespec ⟨1, 0⟩) = 1 ∧
    Duration.toNanos ⟨1, 0⟩ = 1000000000 ∧
    TimeSpec.toNanos (duration_to_timespec ⟨1, 0⟩) ≠ Duration.toNanos ⟨1, 0⟩ := by
  refine ⟨by decide, by decide, by decide, by decide⟩

/-- C2: on the 64-bit target the C layout of `ITimerSpec` (two consecutive
`timespec` sub-structures of two 8-byte, 8-aligned signed fields each) has
size exactly 32 and alignment exactly 8, with the sub-structures at offsets
0 and 16 and their fields at offsets 0 and 8 — no padding anywhere, the size
being exactly the sum of the four field sizes — matching the constants
asserted by the explicit layout test `test_itimer_spec_layout`. -/
theorem C2_layout_32_bytes_8_aligned :
    cStructSize itimer_spec_fields = test_asserted_size ∧
    cStructAlign itimer_spec_fields = test_asserted_align ∧
    cFieldOffsets 0 itimer_spec_fields = [0, 16] ∧
    cStructSize timespec_fields = 16 ∧
    cStructAlign timespec_fields = 8 ∧
    cFieldOffsets 0 timespec_fields = [0, 8] ∧
    cStructSize itimer_spec_fields = 8 + 8 + 8 + 8 := by
  decide

/-- C3: `read_time` yields `Ok(None)` exactly when the underlying read fails
with `EAGAIN`; a full 8-byte read yields `Ok(Some(count))` with the bytes
interpreted as a native-endian unsigned 64-bit integer; any other OS error
is returned unchanged as `Err`. -/
theorem C3_read_time_cases (r : Except Nat (List Nat)) :
    (read_time r = .ok none ↔ r = .error EAGAIN) ∧
    (∀ buf, r = .ok buf → buf.length = TIMERFD_DATA_SIZE →
      read_time r = .ok (some (u64_from_ne_bytes buf))) ∧
    (∀ e, r = .error e → e ≠ EAGAIN → read_time r = .err e) := by
  refine ⟨?_, ?_, ?_⟩
  · cases r with
    | ok buf =>
      by_cases h : buf.length = TIMERFD_DATA_SIZE
      · simp [read_time, h]
      · simp [read_time, h]
    | error e =>
      by_cases h : e = EAGAIN
      · subst h; simp [read_time]
      · simp [read_time, h]
  · intro buf hr hlen
    subst hr
    simp [read_time, hlen]
  · intro e hr hne
    subst hr
    simp [read_time, hne]

/-- C3 witness: a delivered 8-byte buffer with low byte 5 yields
`Ok(Some(5))`; errno 9 (not `EAGAIN`) propagates as `Err(9)`. -/
theorem C3_read_time_cases_witness :
    read_time (.ok [5, 0, 0, 0, 0, 0, 0, 0]) = .ok (some 5) ∧
    read_time (.error 9) = .err 9 :=
  ⟨by
    have h := (C3_read_time_cases (.ok [5, 0, 0, 0, 0, 0, 0, 0])).2.1
      [5, 0, 0, 0, 0, 0, 0, 0] rfl (by decide)
    simpa using h,
   (C3_read_time_cases (.error 9)).2.2 9 rfl (by decide)⟩

/-- C4 as stated requires every core operation, the iteration step included,
to surface OS errors in its returned result: through the iterator an error
outcome would have to be distinguishable from the non-error no-data outcome
(the `EAGAIN` case). -/
def iteration_surfaces_errors : Prop :=
  ∀ e : Nat, e ≠ EAGAIN → timer_next (.error e) ≠ timer_next (.error EAGAIN)

/-- C4 counterexample: the iteration step does not surface read errors —
at errno 9 (`EBADF`) `Iterator::next` returns the very outcome of the
no-data case (`None`), so the claimed list of exactly two discard exceptions
is incomplete. -/
theorem C4_counterexample_iteration_discards_errors :
    ¬ iteration_surfaces_errors :=
  fun h => h 9 (by decide) (by decide)

/-- C4 amended: every core operation surfaces OS errors in its returned
result — create, arm and query turn the `-1` sentinel into an error carrying
the errno at the point of failure, and the read path returns any
non-`EAGAIN` error unchanged — with exactly three exceptions: (a) the
`EAGAIN` no-data condition on a non-blocking read is the distinct non-error
outcome `Ok(None)`; (b) close failures during automatic destruction are
swallowed; (c) the iteration step maps every read error to the no-item
outcome `None`, discarding it. -/
theorem C4_amended_errors_surfaced_three_exceptions :
    (∀ errno : Nat, timerfd_create (-1) errno = .error errno) ∧
    (∀ (raw : Int) (errno : Nat), raw ≠ -1 → timerfd_create raw errno = .ok raw) ∧
    (∀ errno : Nat, timerfd_settime (-1) errno = .error errno) ∧
    (∀ errno : Nat, timerfd_gettime (-1) errno = .error errno) ∧
    (∀ e : Nat, e ≠ EAGAIN → read_time (.error e) = .err e) ∧
    read_time (.error EAGAIN) = .ok none ∧
    (∀ e : Nat, timer_next (.error e) = .value none) ∧
    (∀ r : Except Nat Unit, timerfd_drop r = ()) := by
  refine ⟨?_, ?_, ?_, ?_, ?_, ?_, ?_, ?_⟩
  · intro errno; simp [timerfd_create]
  · intro raw errno h; simp [timerfd_create, h]
  · intro errno; simp [timerfd_settime]
  · intro errno; simp [timerfd_gettime]
  · intro e h; simp [read_time, h]
  · simp [read_time]
  · intro e
    by_cases h : e = EAGAIN
    · subst h; simp [timer_next, read_time]
    · simp [timer_next, read_time, h]
  · intro r; rfl

/-- C4 witness: a failed create with errno 24 surfaces `Err(24)`, a create
returning descriptor 3 succeeds with it, and a read failing with errno 9
surfaces `Err(9)`. -/
theorem C4_amended_errors_surfaced_witness :
    timerfd_create (-1) 24 = .error 24 ∧
    timerfd_create 3 24 = .ok 3 ∧
    read_time (.error 9) = .err 9 :=
  ⟨C4_amended_errors_surfaced_three_exceptions.1 24,
   C4_amended_errors_surfaced_three_exceptions.2.1 3 24 (by decide),
   C4_amended_errors_surfaced_three_exceptions.2.2.2.2.1 9 (by decide)⟩

/-- C5: a successful read delivering a number of bytes different from the
fixed 8-byte counter width reaches `unreachable!("partial read of timerfd")`
— an unrecoverable panic, never a success value and never a recoverable
error. -/
theorem C5_short_read_is_fatal (buf : List Nat)
    (h : buf.length ≠ TIMERFD_DATA_SIZE) :
    read_time (.ok buf) = .fatal ∧
    (∀ v : Option Nat, read_time (.ok buf) ≠ .ok v) ∧
    (∀ e : Nat, read_time (.ok buf) ≠ .err e) := by
  refine ⟨?_, ?_, ?_⟩ <;> simp [read_time, h]

/-- C5 witness: a 3-byte read is a fatal invariant violation. -/
theorem C5_short_read_is_fatal_witness :
    read_time (.ok [0, 0, 0]) = .fatal :=
  (C5_short_read_is_fatal [0, 0, 0] (by decide)).1

/-- C6: the claim states that `ITimerSpec::seconds`, `ITimerSpec::nanoseconds`
and `From<Duration>` each produce `it_interval` zero and `it_value` equal to
the given time.  For every argument accepted by the nix bounds assert the two
integer constructors do exactly that (outside the bounds the program panics);
but evaluating `From<Duration>` at the in-bounds duration of exactly 1 second
shows its `it_value` is the timespec (0 s, 1 ns), denoting 1 nanosecond and
not the given 1 second — the same unscaled seconds fold as in the conversion
function. -/
theorem C6_one_shot_constructors_value_wrong :
    (∀ v : Int, TS_MIN_SECONDS ≤ v → v ≤ TS_MAX_SECONDS →
      ITimerSpec.seconds_checked v = some ⟨TimeSpec.zero, TimeSpec.seconds v⟩ ∧
      TimeSpec.toNanos (TimeSpec.seconds v) = v * NANOS_PER_SEC) ∧
    (∀ v : Int, TS_MIN_SECONDS ≤ v.fdiv NANOS_PER_SEC →
      v.fdiv NANOS_PER_SEC ≤ TS_MAX_SECONDS →
      ITimerSpec.nanoseconds_checked v =
        some ⟨TimeSpec.zero, TimeSpec.nanoseconds v⟩ ∧
      TimeSpec.toNanos (TimeSpec.nanoseconds v) = v) ∧
    ITimerSpec.fromDuration_checked ⟨1, 0⟩ = some ⟨TimeSpec.zero, ⟨0, 1⟩⟩ ∧
    TimeSpec.toNanos ⟨0, 1⟩ = 1 ∧
    TimeSpec.toNanos ⟨0, 1⟩ ≠ Duration.toNanos ⟨1, 0⟩ := by
  refine ⟨?_, ?_, by decide, by decide, by decide⟩
  · intro v h1 h2
    refine ⟨?_, ?_⟩
    · simp [ITimerSpec.seconds_checked, TimeSpec.seconds_checked, h1, h2]
    · simp [TimeSpec.seconds, TimeSpec.toNanos]
  · intro v h1 h2
    refine ⟨?_, ?_⟩
    · simp [ITimerSpec.nanoseconds_checked, TimeSpec.nanoseconds_checked, h1, h2]
    · show v.fdiv NANOS_PER_SEC * NANOS_PER_SEC + v.fmod NANOS_PER_SEC = v
      rw [Int.mul_comm]
      exact Int.fdiv_add_fmod v NANOS_PER_SEC

/-- C6 witness: in-bounds arguments exercise the two bounded conjuncts —
`seconds(5)` and `nanoseconds(1500000000)` both produce a zero interval and
the stated value. -/
theorem C6_one_shot_constructors_value_wrong_witness :
    ITimerSpec.seconds_checked 5 = some ⟨TimeSpec.zero, TimeSpec.seconds 5⟩ ∧
    ITimerSpec.nanoseconds_checked 1500000000 =
      some ⟨TimeSpec.zero, TimeSpec.nanoseconds 1500000000⟩ :=
  ⟨(C6_one_shot_constructors_value_wrong.1 5 (by decide) (by decide)).1,
   (C6_one_shot_constructors_value_wrong.2.1 1500000000
     (by decide) (by decide)).1⟩

/-- C7 counterexample: the claim quantifies over every i64 `v`, but the
program panics in the nix bounds assert instead of returning a new value:
`interval_seconds(10^10)` exceeds `TS_MAX_SECONDS = 9223372035`, and
`interval_nanoseconds(i64::MAX)` floor-divides to 9223372036, also out of
bounds. -/
theorem C7_counterexample_out_of_bounds_panics :
    ITimerSpec.interval_seconds_checked ⟨⟨0, 0⟩, ⟨3, 0⟩⟩ 10000000000 = none ∧
    TS_MAX_SECONDS < 10000000000 ∧
    ITimerSpec.interval_nanoseconds_checked ⟨⟨0, 0⟩, ⟨3, 0⟩⟩ 9223372036854775807 =
      none := by
  decide

/-- C7 amended: for every `ITimerSpec` `s` and every i64 `v` accepted by
nix's `TimeSpec` bounds assert (for seconds: `v` itself within
`TS_MIN_SECONDS..TS_MAX_SECONDS`; for nanoseconds: the floor-divided seconds
of `v` within them — the program panics outside), `interval_seconds(v)` and
`interval_nanoseconds(v)` each return a new value whose `it_value` equals
`s.it_value` unchanged and whose `it_interval` is `v` seconds (denoting
`v * 10^9` ns) respectively `v` nanoseconds (denoting `v` ns); the receiver
`s` is read by value and not modified. -/
theorem C7_interval_setters (s : ITimerSpec) (v : Int) :
    (TS_MIN_SECONDS ≤ v → v ≤ TS_MAX_SECONDS →
      s.interval_seconds_checked v = some ⟨TimeSpec.seconds v, s.it_value⟩ ∧
      TimeSpec.toNanos (TimeSpec.seconds v) = v * NANOS_PER_SEC) ∧
    (TS_MIN_SECONDS ≤ v.fdiv NANOS_PER_SEC →
      v.fdiv NANOS_PER_SEC ≤ TS_MAX_SECONDS →
      s.interval_nanoseconds_checked v =
        some ⟨TimeSpec.nanoseconds v, s.it_value⟩ ∧
      TimeSpec.toNanos (TimeSpec.nanoseconds v) = v) := by
  refine ⟨?_, ?_⟩
  · intro h1 h2
    refine ⟨?_, ?_⟩
    · simp [ITimerSpec.interval_seconds_checked, TimeSpec.seconds_checked,
        h1, h2]
    · simp [TimeSpec.seconds, TimeSpec.toNanos]
  · intro h1 h2
    refine ⟨?_, ?_⟩
    · simp [ITimerSpec.interval_nanoseconds_checked,
        TimeSpec.nanoseconds_checked, h1, h2]
    · show v.fdiv NANOS_PER_SEC * NANOS_PER_SEC + v.fmod NANOS_PER_SEC = v
      rw [Int.mul_comm]
      exact Int.fdiv_add_fmod v NANOS_PER_SEC

/-- C7 witness: with receiver `{it_interval = (0,0), it_value = (7,5)}`,
`interval_seconds(4)` gives interval (4 s, 0 ns) and
`interval_nanoseconds(1500000000)` gives interval (1 s, 5*10^8 ns), the
`it_value` field unchanged in both. -/
theorem C7_interval_setters_witness :
    ITimerSpec.interval_seconds_checked ⟨⟨0, 0⟩, ⟨7, 5⟩⟩ 4 =
      some ⟨⟨4, 0⟩, ⟨7, 5⟩⟩ ∧
    ITimerSpec.interval_nanoseconds_checked ⟨⟨0, 0⟩, ⟨7, 5⟩⟩ 1500000000 =
      some ⟨⟨1, 500000000⟩, ⟨7, 5⟩⟩ := by
  have h1 := ((C7_interval_setters ⟨⟨0, 0⟩, ⟨7, 5⟩⟩ 4).1
    (by decide) (by decide)).1
  have h2 := ((C7_interval_setters ⟨⟨0, 0⟩, ⟨7, 5⟩⟩ 1500000000).2
    (by decide) (by decide)).1
  have e : TimeSpec.nanoseconds 1500000000 = (⟨1, 500000000⟩ : TimeSpec) := by
    decide
  rw [e] at h2
  exact ⟨h1, h2⟩

/-- C8: `set_time` behaves identically to `set_time_with_flags` called with
the default (empty) arm-flag set, whose integer value is 0 — the relative,
non-absolute mode, distinct from the absolute-deadline flag. -/
theorem C8_set_time_is_default_flags (os : Int → ITimerSpec → Bool → Int × Nat)
    (itmr : ITimerSpec) (otmr : Bool) :
    set_time os itmr otmr = set_time_with_flags os TFDTimerFlags.default itmr otmr ∧
    TFDTimerFlags.default.bits = 0 ∧
    TFDTimerFlags.default ≠ TFD_TIMER_ABSTIME := by
  refine ⟨rfl, rfl, by decide⟩

/-- C9: the typed flag constants convert to the exact platform ABI integers:
close-on-exec 524288, non-blocking 2048, absolute-deadline 1; each
vocabulary's empty (default) set converts to 0. -/
theorem C9_flag_values :
    TFD_CLOSEXEC.bits = 524288 ∧
    TFD_NONBLOCK.bits = 2048 ∧
    TFD_TIMER_ABSTIME.bits = 1 ∧
    TFDFlags.default.bits = 0 ∧
    TFDTimerFlags.default.bits = 0 :=
  ⟨rfl, rfl, rfl, rfl, rfl⟩

/-- C10: whenever `read_time` would return an OS error (any errno other than
`EAGAIN`), `Iterator::next` returns `None` without panicking — the same
outcome as the `EAGAIN` no-data case, so through the iterator an OS error is
indistinguishable from no-data. -/
theorem C10_next_error_indistinguishable (e : Nat) (h : e ≠ EAGAIN) :
    read_time (.error e) = .err e ∧
    timer_next (.error e) = .value none ∧
    timer_next (.error e) ≠ .fatal ∧
    timer_next (.error e) = timer_next (.error EAGAIN) := by
  have hr : read_time (.error e) = .err e := by simp [read_time, h]
  have h2 : timer_next (.error e) = .value none := by simp [timer_next, hr]
  have h3 : timer_next (.error EAGAIN) = .value none := by
    simp [timer_next, read_time]
  exact ⟨hr, h2, by simp [h2], h2.trans h3.symm⟩

/-- C10 witness: at errno 9 the iteration step yields `None`, exactly the
no-data outcome. -/
theorem C10_next_error_indistinguishable_witness :
    timer_next (.error 9) = .value none ∧
    timer_next (.error 9) = timer_next (.error EAGAIN) :=
  ⟨(C10_next_error_indistinguishable 9 (by decide)).2.1,
   (C10_next_error_indistinguishable 9 (by decide)).2.2.2⟩

end Timerfd
